import Mathlib

/-!
Verification of the DataSource Loader of the AUTOMATED-DASHBOARD repository
(`dashboard/utils/data_loader.py`), shallowly embedded in Lean 4.

The embedding models:
  * `DataFrame` — the tabular Dataset (`pandas.DataFrame`): a column-name
    list and a list of rows of cell values;
  * `Json` — the JSON values an API response can decode to;
  * `Numerics` — the numeric kernels of `numpy.random` and `math` that the
    synthetic generator uses (PRNG seeding/advancing and the individual
    draw families, `sin`, `pi`, and `pd.to_datetime`), kept abstract as a
    structure parameter: every theorem below is proved for every
    interpretation of these kernels, so nothing depends on the concrete
    distribution of the draws, only on the seeding discipline and the
    shape of the generated table, which are taken from the source;
  * `Env` — the outcomes of the external world during one `load_data`
    call: the database query result, the decoded API response, the decoded
    file table (each of which may raise), the current time, and the
    incoming global PRNG state;
  * `LoaderState` — a `DataLoader` instance: its `source` string, its
    `config` entries, and whether `self.engine` is non-null;
  * the class-level `lru_cache(maxsize=1)` on `load_data`, as an explicit
    single-slot cache keyed by the instance.
-/

/-- Cell value of a `DataFrame`: a number (floats modelled as rationals),
a string, a boolean, a time point (days as an integer), or a null/NaN. -/
inductive Val where
  | q : ℚ → Val
  | s : String → Val
  | b : Bool → Val
  | t : Int → Val
  | null : Val
deriving DecidableEq, Repr

/-- A decoded JSON document, as `response.json()` returns it. -/
inductive Json where
  | null : Json
  | bool : Bool → Json
  | num : ℚ → Json
  | str : String → Json
  | arr : List Json → Json
  | obj : List (String × Json) → Json

/-- The Dataset: an ordered list of column names and a list of rows.
`pandas.DataFrame()` with no arguments is `emptyDataFrame`. -/
structure DataFrame where
  cols : List String
  rows : List (List Val)
deriving DecidableEq, Repr

/-- `pd.DataFrame()` — the empty Dataset. -/
def emptyDataFrame : DataFrame := ⟨[], []⟩

/-- A Dataset is non-empty when it has at least one row
(`not df.empty` in pandas). -/
def DataFrame.nonEmpty (df : DataFrame) : Bool := !df.rows.isEmpty

/-- `c in df.columns`. -/
def DataFrame.hasCol (df : DataFrame) (c : String) : Bool := df.cols.contains c

/-- Abstract numeric kernels used by `_generate_sample_data` and
`_load_from_file`.  The global `numpy.random` state is a `Nat`;
`seedMix` is `np.random.seed` (state from a seed), `advance s n` is the
state after drawing `n` values from state `s`, and each draw family maps
(state, index) to the value drawn.  `parseDate` is `pd.to_datetime` on one
cell.  All theorems hold for every interpretation of these fields. -/
structure Numerics where
  seedMix : Nat → Nat
  advance : Nat → Nat → Nat
  normal : Nat → Nat → ℚ
  randint : Nat → Int → Int → Nat → Int
  uniform : Nat → ℚ → ℚ → Nat → ℚ
  choiceIdx : Nat → Nat → Nat
  randomUnit : Nat → Nat → ℚ
  sin : ℚ → ℚ
  pi : ℚ
  parseDate : Val → Val

/-- `np.linspace(a, b, n)` at index `i` (with numpy's convention that a
single-point linspace is `[a]`; division by zero in `ℚ` yields 0). -/
def linspace (a b : ℚ) (n i : Nat) : ℚ := a + (b - a) * i / ((n : ℚ) - 1)

/-- Column names of the synthetic Dataset, in the order
`_generate_sample_data` builds them. -/
def sampleCols : List String :=
  ["timestamp", "revenue", "users", "orders", "conversion_rate",
   "avg_session_duration", "bounce_rate", "category", "region"]

/-- `DataLoader._generate_sample_data(days)`, called with the global PRNG
in state `st` at current time `now` (days since an epoch).  Returns the
generated Dataset and the PRNG state left behind.  Faithful to the source:
it first resets the PRNG with `np.random.seed(42)`, generates `days`
consecutive daily timestamps ending at `now`, then draws the noise,
`users`, `orders`, `conversion_rate`, `avg_session_duration`,
`bounce_rate`, `category`, `region` and null-mask blocks in that order,
and nulls `revenue` where the mask draw is below 0.05. -/
def generateSampleData (num : Numerics) (st : Nat) (days : Nat) (now : Int) :
    DataFrame × Nat :=
  let sNoise := num.seedMix 42
  let sUsers := num.advance sNoise days
  let sOrders := num.advance sUsers days
  let sConv := num.advance sOrders days
  let sDur := num.advance sConv days
  let sBounce := num.advance sDur days
  let sCat := num.advance sBounce days
  let sReg := num.advance sCat days
  let sMask := num.advance sReg days
  let sEnd := num.advance sMask days
  let row := fun (i : Nat) =>
    let trend := linspace 0 (1/2) days i
    let seasonality := num.sin (linspace 0 (4 * num.pi) days i) * (1/5)
    let noise := num.normal sNoise i
    let revenue := 10000 * (1 + trend + seasonality + noise)
    let maskHit := num.randomUnit sMask i < (1/20 : ℚ)
    [Val.t (now - ((days : Int) - 1 - (i : Int))),
     if maskHit then Val.null else Val.q revenue,
     Val.q ((num.randint sUsers 800 1200 i : ℚ) + linspace 0 400 days i),
     Val.q ((num.randint sOrders 50 150 i : ℚ) + linspace 0 50 days i),
     Val.q (num.uniform sConv (1/50) (1/20) i + linspace 0 (1/100) days i),
     Val.q (num.uniform sDur 2 8 i),
     Val.q (num.uniform sBounce (2/5) (3/5) i - linspace 0 (1/10) days i),
     Val.s (["Electronics", "Clothing", "Home", "Books"].getD
              (num.choiceIdx sCat i % 4) ""),
     Val.s (["North", "South", "East", "West"].getD
              (num.choiceIdx sReg i % 4) "")]
  (⟨sampleCols, (List.range days).map row⟩, sEnd)

/-- A `DataLoader` instance: the configured `source`, the recognized
`config` entries (`None` when absent, so the in-method defaults apply),
and whether `self.engine` holds a live connection (`__init__` leaves it
`None` unless `source == "database"` and `create_engine` succeeded). -/
structure LoaderState where
  source : String
  apiUrl : Option String
  filePath : Option String
  engine : Bool
deriving DecidableEq, Repr

/-- `DataLoader.__init__(source, config)`: the engine is initialized only
for the database source, and a `create_engine` failure is swallowed,
leaving `self.engine = None` (`connectOk` is whether it succeeded). -/
def mkDataLoader (source : String) (apiUrl filePath : Option String)
    (connectOk : Bool) : LoaderState :=
  ⟨source, apiUrl, filePath, source == "database" && connectOk⟩

/-- Outcomes of the external world during one `load_data` call:
the database query result (`pd.read_sql_query`, which may raise), the
decoded API response (`requests.get` + `raise_for_status` + `.json()`,
any of which may raise), the table decoded from the configured file
(`pd.read_csv` / `read_json` / `read_parquet`, which may raise), the
current time `now`, and the incoming global PRNG state `rng`. -/
structure Env where
  dbQuery : Except String DataFrame
  apiResponse : Except String Json
  fileData : Except String DataFrame
  now : Int
  rng : Nat

/-- First binding of a key in a JSON object (`data['data']`-style lookup). -/
def jlookup (k : String) : List (String × Json) → Option Json
  | [] => none
  | (k', v) :: rest => if k' = k then some v else jlookup k rest

/-- One JSON value as a `DataFrame` cell; nested containers do not occur
in the payloads this development reasons about and are mapped to null. -/
def jsonToVal : Json → Val
  | .null => Val.null
  | .bool b => Val.b b
  | .num q => Val.q q
  | .str s => Val.s s
  | .arr _ => Val.null
  | .obj _ => Val.null

/-- Keys of the object records of a list, in first-appearance order:
the column order `pd.DataFrame(list_of_records)` produces. -/
def recordCols (records : List Json) : List String :=
  records.foldl
    (fun acc r =>
      match r with
      | .obj fields =>
          fields.foldl
            (fun acc kv => if acc.contains kv.1 then acc else acc ++ [kv.1]) acc
      | _ => acc)
    []

/-- `pd.DataFrame(records)` on a list of JSON records: columns are the
union of the record keys in first-appearance order; each object record
becomes one row, with null for a missing key.  (A non-object element —
which none of the specified payloads contain — contributes a row of
nulls.) -/
def dfOfRecords (records : List Json) : DataFrame :=
  let cols := recordCols records
  ⟨cols,
   records.map fun r =>
     match r with
     | .obj fields => cols.map fun c => ((jlookup c fields).map jsonToVal).getD Val.null
     | _ => cols.map fun _ => Val.null⟩

/-- `pd.DataFrame(x)` for the payload under a `data` key: an array of
records builds a row-oriented frame; anything else raises, pandas being
unable to build a frame from a scalar (modelled for non-arrays as the
`ValueError` the constructor raises). -/
def dfOfJson : Json → Except String DataFrame
  | .arr records => .ok (dfOfRecords records)
  | _ => .error "ValueError: DataFrame constructor not properly called"

/-- `DataLoader._load_from_database`: a null engine yields an empty frame;
otherwise the 90-day query runs, and a raising query or an empty result
falls back to 90-day synthetic generation. -/
def loadFromDatabase (num : Numerics) (st : LoaderState) (env : Env) : DataFrame :=
  if st.engine = false then emptyDataFrame
  else
    match env.dbQuery with
    | .error _ => (generateSampleData num env.rng 90 env.now).1
    | .ok df =>
        if df.rows.isEmpty then (generateSampleData num env.rng 90 env.now).1
        else df

/-- `DataLoader._load_from_api`: on a decoded response, a dict with a
`data` key is framed from its payload, a top-level list is framed from its
records, and anything else becomes a one-element record list; every raise
(request failure, bad status, malformed JSON, frame construction) falls
back to 30-day synthetic generation. -/
def loadFromApi (num : Numerics) (st : LoaderState) (env : Env) : DataFrame :=
  let _apiUrl := st.apiUrl.getD "https://api.example.com/data"
  match env.apiResponse with
  | .error _ => (generateSampleData num env.rng 30 env.now).1
  | .ok data =>
      match data with
      | .obj fields =>
          match jlookup "data" fields with
          | some payload =>
              match dfOfJson payload with
              | .ok df => df
              | .error _ => (generateSampleData num env.rng 30 env.now).1
          | none => dfOfRecords [Json.obj fields]
      | .arr records => dfOfRecords records
      | other => dfOfRecords [other]

/-- Whether one character list is a suffix of another (both reversed). -/
def suffixMatch : List Char → List Char → Bool
  | [], _ => true
  | _, [] => false
  | a :: as, b :: bs => a == b && suffixMatch as bs

/-- `path.endswith(suffix)` on character lists. -/
def strEndsWith (s post : String) : Bool :=
  suffixMatch post.data.reverse s.data.reverse

/-- Whether `_load_from_file` recognizes a path's extension
(`.csv`, `.json`, `.parquet`). -/
def supportedExt (p : String) : Bool :=
  strEndsWith p ".csv" || strEndsWith p ".json" || strEndsWith p ".parquet"

/-- `df['timestamp'] = pd.to_datetime(df['date'])`: append a `timestamp`
column holding the parsed `date` cell of each row. -/
def addTimestampFromDate (num : Numerics) (df : DataFrame) : DataFrame :=
  let di := df.cols.indexOf "date"
  ⟨df.cols ++ ["timestamp"],
   df.rows.map fun r => r ++ [num.parseDate (r.getD di Val.null)]⟩

/-- `DataLoader._load_from_file`: decode by extension (an unrecognized
extension raises `ValueError` inside the strategy's own handler), then
derive `timestamp` from `date` when `timestamp` is absent and `date`
present; every raise falls back to 30-day synthetic generation. -/
def loadFromFile (num : Numerics) (st : LoaderState) (env : Env) : DataFrame :=
  let path := st.filePath.getD "data/sample_data.csv"
  let decoded : Except String DataFrame :=
    if supportedExt path then env.fileData
    else .error ("Unsupported file format: " ++ path)
  match decoded with
  | .error _ => (generateSampleData num env.rng 30 env.now).1
  | .ok df =>
      if !df.hasCol "timestamp" && df.hasCol "date" then
        addTimestampFromDate num df
      else df

/-- `DataLoader._load_sample_data`: 90-day synthetic generation. -/
def loadSampleData (num : Numerics) (env : Env) : DataFrame :=
  (generateSampleData num env.rng 90 env.now).1

/-- The body of `DataLoader.load_data` inside its outer `try`: dispatch on
the source string, the `else` branch being the sample strategy.  Each
strategy handles its own failures, so the body only raises where the
Python body could raise outside the strategies' inner handlers. -/
def loadDataBody (num : Numerics) (st : LoaderState) (env : Env) :
    Except String DataFrame :=
  if st.source = "database" then .ok (loadFromDatabase num st env)
  else if st.source = "api" then .ok (loadFromApi num st env)
  else if st.source = "file" then .ok (loadFromFile num st env)
  else .ok (loadSampleData num env)

/-- `DataLoader.load_data` (one uncached computation): the outer handler
turns any escaped exception into an empty frame. -/
def loadData (num : Numerics) (st : LoaderState) (env : Env) : DataFrame :=
  match loadDataBody num st env with
  | .ok df => df
  | .error _ => emptyDataFrame

/-- The class-level `lru_cache(maxsize=1)` on `load_data`: at most one
entry, keyed by the instance (`self`), shared by every instance. -/
abbrev Cache := Option (Nat × DataFrame)

/-- A `load_data()` call by instance `inst` (whose state is `st`) under
cache `c`: a hit for the same instance returns the cached frame; any
other cache content recomputes and installs this instance's entry,
evicting whatever was cached (`maxsize=1`). -/
def cachedLoadData (num : Numerics) (inst : Nat) (st : LoaderState)
    (env : Env) (c : Cache) : DataFrame × Cache :=
  match c with
  | some (i, df) =>
      if i = inst then (df, some (i, df))
      else
        let df' := loadData num st env
        (df', some (inst, df'))
  | none =>
      let df' := loadData num st env
      (df', some (inst, df'))

/-- `DataLoader.refresh_cache` called by instance `inst`:
`self.load_data.cache_clear()` empties the whole class-level cache,
whoever the caller is. -/
def refreshCache (_inst : Nat) (_c : Cache) : Cache := none

/-- Whether the strategy selected for this call fails (null engine or
raising query for the database source; raising request/decode for the api
source; unsupported extension or raising decode for the file source). -/
def strategyFails (st : LoaderState) (env : Env) : Bool :=
  if st.source = "database" then
    !st.engine || !env.dbQuery.isOk
  else if st.source = "api" then
    !env.apiResponse.isOk
  else if st.source = "file" then
    !supportedExt (st.filePath.getD "data/sample_data.csv") || !env.fileData.isOk
  else false

/-- A concrete interpretation of the abstract numeric kernels, used only
to instantiate the universally quantified theorems below on closed
inputs. -/
def fixedNumerics : Numerics :=
  ⟨id, fun s n => s + n, fun _ _ => 0, fun _ lo _ _ => lo, fun _ a _ _ => a,
   fun _ _ => 0, fun _ _ => 1, fun _ => 0, 3, id⟩

/-- The synthetic Dataset always carries a `timestamp` column. -/
theorem generateSampleData_timestamp (num : Numerics) (s days : Nat) (now : Int) :
    (generateSampleData num s days now).1.hasCol "timestamp" = true := rfl

/-- The synthetic Dataset for `days` days has exactly `days` rows. -/
theorem generateSampleData_length (num : Numerics) (s days : Nat) (now : Int) :
    (generateSampleData num s days now).1.rows.length = days := by
  simp [generateSampleData]

/-- C5: synthetic generation is deterministic — because
`_generate_sample_data` begins by resetting the global PRNG with
`np.random.seed(42)`, the generated Dataset is independent of the
incoming PRNG state: for a fixed `days` and a fixed window end, any two
invocations produce identical Datasets, every column (timestamps
included) equal. -/
theorem c5_generate_sample_data_deterministic
    (num : Numerics) (s1 s2 : Nat) (days : Nat) (now : Int) :
    (generateSampleData num s1 days now).1 = (generateSampleData num s2 days now).1 := rfl

/-- C2: `load_data` is total — the dispatch body never lets an exception
escape (every strategy failure is handled inside the strategy), so
`load_data` always returns the body's Dataset; and whenever the selected
strategy fails, the returned Dataset is the empty Dataset or a synthetic
fallback Dataset (30- or 90-day window). -/
theorem c2_load_data_total (num : Numerics) (st : LoaderState) (env : Env) :
    loadDataBody num st env = Except.ok (loadData num st env) ∧
    (strategyFails st env = true →
      loadData num st env = emptyDataFrame ∨
      loadData num st env = (generateSampleData num env.rng 30 env.now).1 ∨
      loadData num st env = (generateSampleData num env.rng 90 env.now).1) := by
  constructor
  · unfold loadData loadDataBody
    by_cases h1 : st.source = "database" <;>
      by_cases h2 : st.source = "api" <;>
        by_cases h3 : st.source = "file" <;>
          simp [h1, h2, h3]
  · intro hfail
    unfold strategyFails at hfail
    unfold loadData loadDataBody
    by_cases h1 : st.source = "database"
    · simp [h1] at hfail ⊢
      unfold loadFromDatabase
      rcases hfail with he | hq
      · simp [he]
      · rcases hdb : env.dbQuery with e | d
        · by_cases he : st.engine = false <;> simp [he]
        · rw [hdb] at hq; simp [Except.isOk, Except.toBool] at hq
    · by_cases h2 : st.source = "api"
      · simp [h1, h2] at hfail ⊢
        unfold loadFromApi
        rcases ha : env.apiResponse with e | d
        · simp
        · rw [ha] at hfail; simp [Except.isOk, Except.toBool] at hfail
      · by_cases h3 : st.source = "file"
        · simp [h1, h2, h3] at hfail ⊢
          unfold loadFromFile
          rcases hfail with hext | hf
          · simp [hext]
          · rcases hd : env.fileData with e | d
            · by_cases hext : supportedExt (st.filePath.getD "data/sample_data.csv") <;>
                simp [hext]
            · rw [hd] at hf; simp [Except.isOk, Except.toBool] at hf
        · simp [h1, h2, h3] at hfail

/-- A loader configured for the api source (engine never initialized). -/
def apiLoader : LoaderState := mkDataLoader "api" none none false

/-- An environment in which the API request raises (e.g. a timeout). -/
def envApiDown : Env :=
  ⟨Except.ok emptyDataFrame, Except.error "timeout", Except.ok emptyDataFrame, 0, 0⟩

theorem c2_witness :
    strategyFails apiLoader envApiDown = true ∧
    (loadData fixedNumerics apiLoader envApiDown = emptyDataFrame ∨
     loadData fixedNumerics apiLoader envApiDown =
       (generateSampleData fixedNumerics envApiDown.rng 30 envApiDown.now).1 ∨
     loadData fixedNumerics apiLoader envApiDown =
       (generateSampleData fixedNumerics envApiDown.rng 90 envApiDown.now).1) :=
  ⟨by decide, (c2_load_data_total fixedNumerics apiLoader envApiDown).2 (by decide)⟩

/-- C9: every source string other than `database`, `api` and `file`
reaches the dispatch's `else` branch, the sample strategy, and yields the
90-day synthetic Dataset — an unrecognized source identifier is never an
error. -/
theorem c9_unknown_source_sample (num : Numerics) (st : LoaderState) (env : Env)
    (h1 : st.source ≠ "database") (h2 : st.source ≠ "api") (h3 : st.source ≠ "file") :
    loadData num st env = (generateSampleData num env.rng 90 env.now).1 := by
  unfold loadData loadDataBody loadSampleData
  simp [h1, h2, h3]

/-- A loader configured with an arbitrary unrecognized source string. -/
def oddLoader : LoaderState := mkDataLoader "sampleX" none none false

theorem c9_witness :
    loadData fixedNumerics oddLoader envApiDown =
      (generateSampleData fixedNumerics envApiDown.rng 90 envApiDown.now).1 :=
  c9_unknown_source_sample fixedNumerics oddLoader envApiDown
    (by decide) (by decide) (by decide)

/-- C7: for the database source with a live engine, a query that succeeds
with zero rows yields the 90-day synthetic Dataset, not an empty one. -/
theorem c7_db_empty_result_synthetic (num : Numerics) (st : LoaderState)
    (env : Env) (df : DataFrame)
    (hsrc : st.source = "database") (heng : st.engine = true)
    (hq : env.dbQuery = Except.ok df) (hrows : df.rows = []) :
    loadData num st env = (generateSampleData num env.rng 90 env.now).1 := by
  unfold loadData loadDataBody loadFromDatabase
  simp [hsrc, heng, hq, hrows]

/-- A loader configured for the database source with a live engine. -/
def dbLoader : LoaderState := mkDataLoader "database" none none true

/-- An environment whose database query succeeds with zero rows. -/
def envDbEmpty : Env :=
  ⟨Except.ok ⟨["timestamp", "revenue"], []⟩, Except.ok Json.null,
   Except.ok emptyDataFrame, 7, 5⟩

theorem c7_witness :
    loadData fixedNumerics dbLoader envDbEmpty =
      (generateSampleData fixedNumerics envDbEmpty.rng 90 envDbEmpty.now).1 :=
  c7_db_empty_result_synthetic fixedNumerics dbLoader envDbEmpty
    ⟨["timestamp", "revenue"], []⟩ (by decide) (by decide) rfl rfl

/-- A loader configured for the database source whose connection was
never established (`create_engine` failed, `self.engine is None`). -/
def dbLoaderDown : LoaderState := mkDataLoader "database" none none false

/-- An arbitrary environment for exercising the null-engine path. -/
def envIdle : Env :=
  ⟨Except.ok emptyDataFrame, Except.ok Json.null, Except.ok emptyDataFrame, 100, 11⟩

/-- C3 counterexample: with a never-established connection, `load_data`
on the database source returns the EMPTY Dataset (`return pd.DataFrame()`
on the null-engine branch), not the 90-day synthetic fallback the claim
asserts — the two differ already in row count (0 versus 90). -/
theorem c3_counterexample :
    loadData fixedNumerics dbLoaderDown envIdle = emptyDataFrame ∧
    loadData fixedNumerics dbLoaderDown envIdle ≠
      (generateSampleData fixedNumerics envIdle.rng 90 envIdle.now).1 := by
  refine ⟨rfl, fun h => ?_⟩
  have hlen : (loadData fixedNumerics dbLoaderDown envIdle).rows.length =
      (generateSampleData fixedNumerics envIdle.rng 90 envIdle.now).1.rows.length := by
    rw [h]
  rw [generateSampleData_length] at hlen
  exact absurd hlen (by decide)

/-- C3 amended: for the database source, a never-established connection
makes every `load_data` call return the empty Dataset; the 90-day
synthetic fallback is produced only when the engine exists and the query
raises (or, per C7, returns zero rows). -/
theorem c3_amended_null_engine_empty (num : Numerics) (st : LoaderState)
    (env : Env) (hsrc : st.source = "database") :
    (st.engine = false → loadData num st env = emptyDataFrame) ∧
    (∀ e, st.engine = true → env.dbQuery = Except.error e →
      loadData num st env = (generateSampleData num env.rng 90 env.now).1) := by
  constructor
  · intro heng
    unfold loadData loadDataBody loadFromDatabase
    simp [hsrc, heng]
  · intro e heng hq
    unfold loadData loadDataBody loadFromDatabase
    simp [hsrc, heng, hq]

theorem c3_amended_witness :
    loadData fixedNumerics dbLoaderDown envIdle = emptyDataFrame :=
  (c3_amended_null_engine_empty fixedNumerics dbLoaderDown envIdle (by decide)).1
    (by decide)

/-- An environment whose API response decodes to a top-level array of one
record that has a `revenue` field but no `timestamp` field. -/
def envApiNoTimestamp : Env :=
  ⟨Except.ok emptyDataFrame,
   Except.ok (Json.arr [Json.obj [("revenue", Json.num 50)]]),
   Except.ok emptyDataFrame, 0, 0⟩

/-- C1 counterexample: for the api source, a successful response whose
records lack a `timestamp` field produces a non-empty Dataset with no
`timestamp` column — `_load_from_api` never synthesizes one, so the
claimed invariant fails. -/
theorem c1_counterexample :
    (loadData fixedNumerics apiLoader envApiNoTimestamp).nonEmpty = true ∧
    (loadData fixedNumerics apiLoader envApiNoTimestamp).hasCol "timestamp" = false := by
  constructor <;> rfl

/-- C1 amended: the timestamp invariant holds for the database and sample
strategies — given that database query results (drawn by a query that
filters on `timestamp`) carry a `timestamp` column, every non-empty
Dataset returned for a source other than `api` and `file` has a
`timestamp` column; the api and file strategies may return non-empty
Datasets without one when the upstream payload lacks it. -/
theorem c1_amended_timestamp_invariant (num : Numerics) (st : LoaderState)
    (env : Env)
    (hdb : ∀ d, env.dbQuery = Except.ok d → d.hasCol "timestamp" = true)
    (hapi : st.source ≠ "api") (hfile : st.source ≠ "file")
    (hne : (loadData num st env).nonEmpty = true) :
    (loadData num st env).hasCol "timestamp" = true := by
  by_cases hsrc : st.source = "database"
  · have hload : loadData num st env = loadFromDatabase num st env := by
      unfold loadData loadDataBody
      simp [hsrc]
    rw [hload] at hne ⊢
    unfold loadFromDatabase at hne ⊢
    by_cases heng : st.engine = false
    · rw [if_pos heng] at hne
      simp [emptyDataFrame, DataFrame.nonEmpty] at hne
    · rw [if_neg heng] at hne ⊢
      rcases hq : env.dbQuery with e | d
      · exact generateSampleData_timestamp num env.rng 90 env.now
      · dsimp only at hne ⊢
        by_cases hr : d.rows.isEmpty = true
        · rw [if_pos hr]
          exact generateSampleData_timestamp num env.rng 90 env.now
        · rw [if_neg hr]
          exact hdb d hq
  · unfold loadData loadDataBody loadSampleData
    simp [hsrc, hapi, hfile, generateSampleData_timestamp]

/-- An environment whose database query succeeds with one row carrying a
`timestamp` column. -/
def envDbRow : Env :=
  ⟨Except.ok ⟨["timestamp", "revenue"], [[Val.t 3, Val.q 10]]⟩,
   Except.ok Json.null, Except.ok emptyDataFrame, 3, 9⟩

theorem c1_amended_witness :
    (loadData fixedNumerics dbLoader envDbRow).hasCol "timestamp" = true :=
  c1_amended_timestamp_invariant fixedNumerics dbLoader envDbRow
    (fun d h => by
      have h2 := Except.ok.inj h
      exact h2 ▸ (by decide))
    (by decide) (by decide) (by decide)

/-- C6: for the api source, a successful JSON response is normalized by
shape — an object with a `data` key holding an array yields the frame of
that array's records, a top-level array yields the frame of its records,
and an object without a `data` key becomes a one-record frame. -/
theorem c6_api_json_shapes (num : Numerics) (st : LoaderState) (env : Env)
    (hsrc : st.source = "api") :
    (∀ fields records, env.apiResponse = Except.ok (Json.obj fields) →
       jlookup "data" fields = some (Json.arr records) →
       loadData num st env = dfOfRecords records) ∧
    (∀ records, env.apiResponse = Except.ok (Json.arr records) →
       loadData num st env = dfOfRecords records) ∧
    (∀ fields, env.apiResponse = Except.ok (Json.obj fields) →
       jlookup "data" fields = none →
       loadData num st env = dfOfRecords [Json.obj fields]) := by
  have hload : loadData num st env = loadFromApi num st env := by
    unfold loadData loadDataBody
    rw [hsrc]
    rfl
  refine ⟨?_, ?_, ?_⟩
  · intro fields records hresp hdata
    rw [hload]
    unfold loadFromApi
    rw [hresp]
    dsimp only
    rw [hdata]
    rfl
  · intro records hresp
    rw [hload]
    unfold loadFromApi
    rw [hresp]
  · intro fields hresp hdata
    rw [hload]
    unfold loadFromApi
    rw [hresp]
    dsimp only
    rw [hdata]

/-- An environment whose API response is an object with a `data` key
holding one record (the worked example of the spec). -/
def envApiData : Env :=
  ⟨Except.ok emptyDataFrame,
   Except.ok (Json.obj [("data",
     Json.arr [Json.obj [("timestamp", Json.str "2024-01-01"),
                         ("revenue", Json.num 100)]])]),
   Except.ok emptyDataFrame, 0, 0⟩

theorem c6_witness :
    loadData fixedNumerics apiLoader envApiData =
      dfOfRecords [Json.obj [("timestamp", Json.str "2024-01-01"),
                             ("revenue", Json.num 100)]] :=
  (c6_api_json_shapes fixedNumerics apiLoader envApiData rfl).1 _ _ rfl rfl

/-- C8: for the file source with a recognized extension and a successful
decode, a table lacking `timestamp` but carrying `date` gains a
`timestamp` column holding the parsed `date` cells; a table that already
has `timestamp` is returned unchanged. -/
theorem c8_file_date_to_timestamp (num : Numerics) (st : LoaderState)
    (env : Env) (df : DataFrame)
    (hsrc : st.source = "file")
    (hext : supportedExt (st.filePath.getD "data/sample_data.csv") = true)
    (hfile : env.fileData = Except.ok df) :
    (df.hasCol "timestamp" = false → df.hasCol "date" = true →
       loadData num st env = addTimestampFromDate num df ∧
       (loadData num st env).hasCol "timestamp" = true) ∧
    (df.hasCol "timestamp" = true → loadData num st env = df) := by
  have hload : loadData num st env = loadFromFile num st env := by
    unfold loadData loadDataBody
    rw [hsrc]
    rfl
  have hdec : loadFromFile num st env =
      (if !df.hasCol "timestamp" && df.hasCol "date" then
        addTimestampFromDate num df else df) := by
    unfold loadFromFile
    simp only [hext, hfile, if_true]
  constructor
  · intro hts hdate
    rw [hload, hdec, if_pos (by rw [hts, hdate]; rfl)]
    refine ⟨rfl, ?_⟩
    simp [addTimestampFromDate, DataFrame.hasCol]
  · intro hts
    rw [hload, hdec, if_neg (by rw [hts]; simp)]

/-- A loader configured for the file source with the default
`data/sample_data.csv` path. -/
def fileLoader : LoaderState := mkDataLoader "file" none none false

/-- The decoded table of a CSV with columns `date,value` and no
`timestamp` column. -/
def csvTable : DataFrame := ⟨["date", "value"], [[Val.s "2024-01-01", Val.q 1]]⟩

/-- An environment whose file decode yields `csvTable`. -/
def envFileCsv : Env :=
  ⟨Except.ok emptyDataFrame, Except.ok Json.null, Except.ok csvTable, 0, 0⟩

theorem c8_witness :
    loadData fixedNumerics fileLoader envFileCsv =
      addTimestampFromDate fixedNumerics csvTable ∧
    (loadData fixedNumerics fileLoader envFileCsv).hasCol "timestamp" = true :=
  (c8_file_date_to_timestamp fixedNumerics fileLoader envFileCsv csvTable
      rfl (by decide) rfl).1 (by decide) (by decide)

/-- C4: per-instance memoization — with no other activity, a second
`load_data()` by the same instance returns the Dataset cached by the
first call (whatever the world does in between), and `refresh_cache()`
followed by `load_data()` recomputes from the current world. -/
theorem c4_cache_memoization (num : Numerics) (inst : Nat) (st : LoaderState)
    (env1 env2 : Env) (c : Cache) :
    (cachedLoadData num inst st env2 (cachedLoadData num inst st env1 c).2).1 =
      (cachedLoadData num inst st env1 c).1 ∧
    (cachedLoadData num inst st env2
        (refreshCache inst (cachedLoadData num inst st env1 c).2)).1 =
      loadData num st env2 := by
  rcases c with _ | ⟨i, df⟩
  · simp [cachedLoadData, refreshCache]
  · by_cases h : i = inst <;> simp [cachedLoadData, refreshCache, h]

/-- C10: the memoization cell is class-level and shared — after a second
instance calls `load_data()`, the cache holds only the second instance's
entry (the first instance's Dataset is evicted, so its next call
recomputes), and `refresh_cache()` called by one instance clears the
entry cached for another. -/
theorem c10_cache_shared_across_instances (num : Numerics) (i1 i2 : Nat)
    (st1 st2 : LoaderState) (env1 env2 env3 : Env) (c : Cache)
    (hne : i1 ≠ i2) :
    (cachedLoadData num i2 st2 env2 (cachedLoadData num i1 st1 env1 c).2).2 =
      some (i2, loadData num st2 env2) ∧
    (cachedLoadData num i1 st1 env3
        (cachedLoadData num i2 st2 env2 (cachedLoadData num i1 st1 env1 c).2).2).1 =
      loadData num st1 env3 ∧
    (cachedLoadData num i1 st1 env3
        (refreshCache i2 (cachedLoadData num i1 st1 env1 c).2)).1 =
      loadData num st1 env3 := by
  have h21 : ¬ i2 = i1 := fun h => hne h.symm
  have h1 : (cachedLoadData num i1 st1 env1 c).2 =
      some (i1, (cachedLoadData num i1 st1 env1 c).1) := by
    rcases c with _ | ⟨i, df⟩
    · simp [cachedLoadData]
    · by_cases h : i = i1 <;> simp [cachedLoadData, h]
  rw [h1]
  refine ⟨?_, ?_, ?_⟩
  · simp [cachedLoadData, hne]
  · simp [cachedLoadData, h21, hne]
  · simp [cachedLoadData, refreshCache]

theorem c10_witness :
    (cachedLoadData fixedNumerics 1 dbLoader envIdle
        (cachedLoadData fixedNumerics 0 apiLoader envApiDown none).2).2 =
      some (1, loadData fixedNumerics dbLoader envIdle) ∧
    (cachedLoadData fixedNumerics 0 apiLoader envDbRow
        (cachedLoadData fixedNumerics 1 dbLoader envIdle
          (cachedLoadData fixedNumerics 0 apiLoader envApiDown none).2).2).1 =
      loadData fixedNumerics apiLoader envDbRow ∧
    (cachedLoadData fixedNumerics 0 apiLoader envDbRow
        (refreshCache 1 (cachedLoadData fixedNumerics 0 apiLoader envApiDown none).2)).1 =
      loadData fixedNumerics apiLoader envDbRow :=
  c10_cache_shared_across_instances fixedNumerics 0 1 apiLoader dbLoader
    envApiDown envIdle envDbRow none (by decide)
